import Mathlib

/-!
Shallow embedding of two modules of the gutenberg repository fragment:

* `src/edit-post/api/plugin.js` — the `PluginRegistry` class: plugin
  registration with validation, UI-component registration and lookup.
  JavaScript values relevant to `registerPlugin` are modelled by the
  inductive `JSValue` (with `typeof` and truthiness semantics); the two
  registry maps are modelled as association lists with JavaScript
  property-assignment semantics (overwrite in place, append when new).
  A thrown `TypeError` is modelled by the `Except.error` branch.

* `src/packages/dataviews/src/view-actions.tsx` — the view-options
  dropdown: its `onChange` handlers are pure functions from the current
  `View` record (plus the selected value) to the record passed to
  `onChangeView`, and the hidable/sortable field filters are list
  filters.
-/

namespace Gutenberg

/-- A JavaScript value as observed by `registerPlugin`: it reads the
`name` and `render` properties of its argument and assigns `sidebar`,
so an object is modelled by those three properties (`vUndefined`
standing for an absent property). `vFunction` carries an identifier so
distinct functions stay distinct. -/
inductive JSValue where
  | vNull
  | vUndefined
  | vBool (b : Bool)
  | vNumber (n : Int)
  | vString (s : String)
  | vFunction (id : Nat)
  | vObject (name render sidebar : JSValue)
deriving DecidableEq, Repr

/-- JavaScript `typeof`. Note `typeof null` is `"object"`. -/
def typeofV : JSValue → String
  | .vNull => "object"
  | .vUndefined => "undefined"
  | .vBool _ => "boolean"
  | .vNumber _ => "number"
  | .vString _ => "string"
  | .vFunction _ => "function"
  | .vObject _ _ _ => "object"

/-- JavaScript truthiness. -/
def jsTruthy : JSValue → Bool
  | .vNull => false
  | .vUndefined => false
  | .vBool b => b
  | .vNumber n => n != 0
  | .vString s => s != ""
  | .vFunction _ => true
  | .vObject _ _ _ => true

/-- The empty object literal assigned by `settings.sidebar = {}`:
every property read on it yields `undefined`. -/
def emptyObject : JSValue := .vObject .vUndefined .vUndefined .vUndefined

/-- The test `/^[a-z][a-z0-9-]*$/.test(name)`: a lowercase letter
followed by lowercase letters, digits or dashes. -/
def nameOk (s : String) : Bool :=
  match s.data with
  | [] => false
  | c :: rest =>
    (('a' ≤ c && c ≤ 'z') &&
      rest.all (fun d => ('a' ≤ d && d ≤ 'z') || ('0' ≤ d && d ≤ '9') || d == '-'))

/-- Property read on a JavaScript plain-object map: `m[k]`, `none`
standing for `undefined`. -/
def lookupProp {α : Type} : List (String × α) → String → Option α
  | [], _ => none
  | (k1, v) :: rest, k => if k1 = k then some v else lookupProp rest k

/-- Property assignment `m[k] = v` on a JavaScript plain-object map:
an existing key keeps its position and is overwritten, a new key is
appended. -/
def setProp {α : Type} : List (String × α) → String → α → List (String × α)
  | [], k, v => [(k, v)]
  | (k1, v1) :: rest, k, v =>
    if k1 = k then (k, v) :: rest else (k1, v1) :: setProp rest k v

/-- The record stored by `registerUIComponent`. -/
structure UIComponentRecord where
  pluginName : String
  uiType : String
deriving DecidableEq, Repr

/-- The state of a `PluginRegistry` instance: its two maps. -/
structure PluginRegistry where
  plugins : List (String × JSValue)
  pluginUIComponents : List (String × UIComponentRecord)
deriving DecidableEq, Repr

/-- A fresh `PluginRegistry` (its constructor). -/
def emptyRegistry : PluginRegistry := { plugins := [], pluginUIComponents := [] }

/-- The `applyFilters` function of the external `@wordpress/hooks`
package, as observed by this module when no filter is registered for
the hook: it returns the value unchanged. -/
def applyFilters (_hookName : String) (value : JSValue) (_arg : JSValue) : JSValue :=
  value

/-- The outcome of a `registerPlugin` call: the `console.error`
messages emitted, and either the updated registry paired with the
returned value, or a thrown `TypeError`. -/
structure RegResult where
  log : List String
  outcome : Except String (PluginRegistry × JSValue)
deriving Repr

/-- The duplicate-name check `if (this.plugins[settings.name]) console.error(...)`:
a warning only, guarded by JavaScript truthiness of the stored entry. -/
def dupWarning (nm : String) (plugins : List (String × JSValue)) : List String :=
  match lookupProp plugins nm with
  | some v => if jsTruthy v then ["Plugin \"" ++ nm ++ "\" is already registered."] else []
  | none => []

/-- `PluginRegistry.registerPlugin(settings)`. The checks run in source
order: `typeof settings !== 'object'` (so `null` passes and the later
`settings.name` read throws), `typeof settings.name !== 'string'`, the
name pattern, the duplicate warning (no early return), and
`isFunction(settings.render)`. On success `settings.sidebar = {}` is
assigned, the `editPost.registerPlugin` filter is applied, and the
result is stored and returned. -/
def registerPlugin (st : PluginRegistry) (settings : JSValue) : RegResult :=
  match settings with
  | .vNull =>
    { log := [],
      outcome := .error "TypeError: Cannot read properties of null (reading name)" }
  | .vObject name render _sidebar =>
    match name with
    | .vString nm =>
      if !nameOk nm then
        { log := ["Plugin names must include only lowercase alphanumeric characters or dashes, and start with a letter. Example: \"my-plugin\"."],
          outcome := .ok (st, .vNull) }
      else
        match render with
        | .vFunction k =>
          let filtered := applyFilters "editPost.registerPlugin"
            (.vObject (.vString nm) (.vFunction k) emptyObject) (.vString nm)
          { log := dupWarning nm st.plugins,
            outcome := .ok
              ({ st with plugins := setProp st.plugins nm filtered }, filtered) }
        | _ =>
          { log := dupWarning nm st.plugins ++
              ["The \"render\" property must be specified and must be a valid function."],
            outcome := .ok (st, .vNull) }
    | _ =>
      { log := ["Plugin names must be strings."], outcome := .ok (st, .vNull) }
  | _ =>
    { log := ["No settings object provided!"], outcome := .ok (st, .vNull) }

/-- `PluginRegistry.registerUIComponent(pluginName, uiNamespacedName, uiType)`. -/
def registerUIComponent (st : PluginRegistry)
    (pluginName uiNamespacedName uiType : String) : PluginRegistry :=
  { st with pluginUIComponents :=
      setProp st.pluginUIComponents uiNamespacedName (UIComponentRecord.mk pluginName uiType) }

/-- Truthiness of the `uiType` argument of `getRegisteredUIComponent`
(declared `{string?}`): `null` and the empty string are falsy. -/
def uiTypeTruthy : Option String → Bool
  | none => false
  | some s => s != ""

/-- `PluginRegistry.getRegisteredUIComponent(uiNamespacedName, uiType = null)`:
looks the record up, and only when the `uiType` argument is truthy
filters on an exact match of the stored `uiType`. -/
def getRegisteredUIComponent (st : PluginRegistry)
    (uiNamespacedName : String) (uiType : Option String) : Option UIComponentRecord :=
  let uiComponent := lookupProp st.pluginUIComponents uiNamespacedName
  if uiTypeTruthy uiType then
    match uiComponent with
    | some c => if some c.uiType = uiType then some c else none
    | none => none
  else
    uiComponent

/-- The validation conditions of claim C2, read off the checks of
`registerPlugin`: the argument is not an object in the `typeof` sense,
or its `name` is not a string, or its `name` fails the pattern, or its
`render` is not a function. -/
def failsValidation : JSValue → Bool
  | .vObject name render _ =>
    (typeofV name != "string") ||
      (match name with | .vString s => !nameOk s | _ => false) ||
      (typeofV render != "function")
  | v => typeofV v != "object"

/-- Modelled from the spec: the sort sub-record of a view, a
field/direction pair (the `View` type of `./types` is not part of this
fragment; the spec calls it "sort field/direction"). -/
structure SortSpec where
  field : String
  direction : String
deriving DecidableEq, Repr

/-- Modelled from the spec: the layout sub-record of a view. The
`./types` file is not part of this fragment; `view-actions.tsx` reads
only `view.layout.mediaField`, which may be absent. -/
structure Layout where
  mediaField : Option String
deriving DecidableEq, Repr

/-- The empty layout record written as `layout: {}` by the layout
switcher: every property is absent. -/
def emptyLayout : Layout := { mediaField := none }

/-- Modelled from the spec: the view-configuration record — "layout
type, page size, sort field/direction, hidden-field list" — with the
fields `view-actions.tsx` reads (`type`, `perPage`, `page`, `sort?`,
`hiddenFields?`, `layout`); the `./types` file is not part of this
fragment. -/
structure View where
  type : String
  perPage : Nat
  page : Nat
  sort : Option SortSpec
  hiddenFields : Option (List String)
  layout : Layout
deriving DecidableEq, Repr

/-- Modelled from the spec: an entry of `VIEW_LAYOUTS` (imported from
`./layouts`, not part of this fragment), as used by `ViewTypeMenu`:
only its `type` is consulted by the logic under proof. -/
structure ViewLayoutDef where
  type : String
deriving DecidableEq, Repr

/-- Modelled from the spec: the `VIEW_LAYOUTS` constant of
`./layouts` (not part of this fragment): one layout per supported
type, the types being `table`, `grid` and `list`. -/
def VIEW_LAYOUTS : List ViewLayoutDef := [⟨"table"⟩, ⟨"grid"⟩, ⟨"list"⟩]

/-- Modelled from the spec: a normalized field description (the
`NormalizedField` type of `./types` is not part of this fragment),
with the properties `view-actions.tsx` reads: `id`, `header`,
`enableHiding?` and `enableSorting?`. -/
structure NormalizedField where
  id : String
  header : String
  enableHiding : Option Bool
  enableSorting : Option Bool
deriving DecidableEq, Repr

/-- `_availableViews` in `ViewTypeMenu`: `VIEW_LAYOUTS`, filtered by
membership of the type in `supportedLayouts` when that prop is given. -/
def availableViews (supportedLayouts : Option (List String)) : List ViewLayoutDef :=
  match supportedLayouts with
  | none => VIEW_LAYOUTS
  | some ls => VIEW_LAYOUTS.filter (fun v => ls.contains v.type)

/-- The `onChange` handler of a layout radio item in `ViewTypeMenu`:
the `switch` on `e.target.value` accepts `list`, `grid` and `table`
(setting `type` to the value and resetting `layout` to `{}`), and
throws `Invalid dataview` otherwise. -/
def viewTypeSwitch (view : View) (value : String) : Except String View :=
  if value == "list" || value == "grid" || value == "table" then
    .ok { view with type := value, layout := emptyLayout }
  else
    .error "Invalid dataview"

/-- `PAGE_SIZE_VALUES` of `view-actions.tsx`. -/
def PAGE_SIZE_VALUES : List Nat := [10, 20, 50, 100]

/-- The `onChange` handler of a page-size radio item in
`PageSizeMenu`: sets `perPage` to the chosen size and `page` to 1. -/
def onPageSizeSelect (view : View) (size : Nat) : View :=
  { view with perPage := size, page := 1 }

/-- The `onChange` handler of a sort radio item in `SortMenu`:
replaces `sort` by the chosen field/direction pair. -/
def onSortSelect (view : View) (fieldId direction : String) : View :=
  { view with sort := some { field := fieldId, direction := direction } }

/-- The `onChange` handler of a field checkbox in
`FieldsVisibilityMenu`: removes the id from `hiddenFields` when
present (`filter`), appends it when absent (`[...(hiddenFields || []), id]`,
so an absent list becomes `[id]`). -/
def toggleFieldVisibility (view : View) (fieldId : String) : View :=
  let toggled : List String :=
    match view.hiddenFields with
    | some hf =>
      if hf.contains fieldId then hf.filter (fun i => i != fieldId)
      else hf ++ [fieldId]
    | none => [fieldId]
  { view with hiddenFields := some toggled }

/-- `hidableFields` in `FieldsVisibilityMenu`: the fields whose
`enableHiding` is not `false` and whose `id` differs from
`view.layout.mediaField`. -/
def hidableFields (fields : List NormalizedField) (view : View) : List NormalizedField :=
  fields.filter (fun f => f.enableHiding != some false && view.layout.mediaField != some f.id)

/-- `sortableFields` in `SortMenu`: the fields whose `enableSorting`
is not `false`. -/
def sortableFields (fields : List NormalizedField) : List NormalizedField :=
  fields.filter (fun f => f.enableSorting != some false)

/-- `FieldsVisibilityMenu` returns `null` exactly when
`hidableFields` is empty (`if (!hidableFields?.length) return null`). -/
def fieldsVisibilityMenuIsNull (fields : List NormalizedField) (view : View) : Bool :=
  (hidableFields fields view).isEmpty

/-- `SortMenu` returns `null` exactly when `sortableFields` is empty. -/
def sortMenuIsNull (fields : List NormalizedField) : Bool :=
  (sortableFields fields).isEmpty

/-- A concrete view-configuration record, used to instantiate the
universally quantified theorems below. -/
def sampleView : View :=
  { type := "table", perPage := 20, page := 3,
    sort := some { field := "date", direction := "desc" },
    hiddenFields := some ["author"],
    layout := { mediaField := some "img" } }

theorem lookupProp_setProp {α : Type} (l : List (String × α)) (k : String) (v : α) :
    lookupProp (setProp l k v) k = some v := by
  induction l with
  | nil => simp [setProp, lookupProp]
  | cons hd tl ih =>
    obtain ⟨k1, v1⟩ := hd
    by_cases h : k1 = k
    · simp [setProp, lookupProp, h]
    · simp [setProp, lookupProp, h, ih]

/-- C1: registering a plugin under an already-registered name is not a
hard failure: `registerPlugin` logs the duplicate-name console error
but still proceeds, overwrites the entry stored under that name with
the new settings, and returns the new settings object, for every
settings object passing the other validations (an object whose `name`
is a string matching the pattern and whose `render` is a function). -/
theorem registerPlugin_duplicate_proceeds (st : PluginRegistry) (nm : String) (k : Nat)
    (sb old : JSValue) (hname : nameOk nm = true)
    (hdup : lookupProp st.plugins nm = some old) (htruthy : jsTruthy old = true) :
    registerPlugin st (.vObject (.vString nm) (.vFunction k) sb)
      = { log := ["Plugin \"" ++ nm ++ "\" is already registered."],
          outcome := Except.ok ({ st with plugins := setProp st.plugins nm (JSValue.vObject (.vString nm) (.vFunction k) emptyObject) }, JSValue.vObject (.vString nm) (.vFunction k) emptyObject) }
    ∧ lookupProp (setProp st.plugins nm (JSValue.vObject (.vString nm) (.vFunction k) emptyObject)) nm
      = some (JSValue.vObject (.vString nm) (.vFunction k) emptyObject) := by
  refine ⟨?_, lookupProp_setProp _ _ _⟩
  simp [registerPlugin, hname, applyFilters, dupWarning, hdup, htruthy]

/-- Witness for C1 at a concrete registry holding "my-plugin". -/
theorem registerPlugin_duplicate_proceeds_witness :
    registerPlugin { plugins := [("my-plugin", JSValue.vObject (.vString "my-plugin") (.vFunction 0) emptyObject)], pluginUIComponents := [] } (.vObject (.vString "my-plugin") (.vFunction 1) .vUndefined)
      = { log := ["Plugin \"" ++ "my-plugin" ++ "\" is already registered."],
          outcome := Except.ok ({ plugins := setProp [("my-plugin", JSValue.vObject (.vString "my-plugin") (.vFunction 0) emptyObject)] "my-plugin" (JSValue.vObject (.vString "my-plugin") (.vFunction 1) emptyObject), pluginUIComponents := [] }, JSValue.vObject (.vString "my-plugin") (.vFunction 1) emptyObject) }
    ∧ lookupProp (setProp [("my-plugin", JSValue.vObject (.vString "my-plugin") (.vFunction 0) emptyObject)] "my-plugin" (JSValue.vObject (.vString "my-plugin") (.vFunction 1) emptyObject)) "my-plugin"
      = some (JSValue.vObject (.vString "my-plugin") (.vFunction 1) emptyObject) := by
  exact registerPlugin_duplicate_proceeds _ "my-plugin" 1 .vUndefined _ (by decide) rfl (by decide)

/-- C2: whenever the argument fails validation — it is not an object
(in the sense of `typeof`), or its `name` is not a string, or its
`name` fails the pattern, or its `render` is not a function —
`registerPlugin` returns `null` and leaves the registry unchanged, so
no entry is added to the plugins map. -/
theorem registerPlugin_invalid_returns_null (st : PluginRegistry) (s : JSValue)
    (h : failsValidation s = true) :
    (registerPlugin st s).outcome = Except.ok (st, JSValue.vNull) := by
  cases s with
  | vNull => simp [failsValidation, typeofV] at h
  | vUndefined => rfl
  | vBool b => rfl
  | vNumber n => rfl
  | vString str => rfl
  | vFunction k => rfl
  | vObject name render sb =>
    cases name with
    | vString nm =>
      cases hn : nameOk nm with
      | false => simp [registerPlugin, hn]
      | true =>
        cases render with
        | vFunction k => simp [failsValidation, typeofV, hn] at h
        | vNull => simp [registerPlugin, hn]
        | vUndefined => simp [registerPlugin, hn]
        | vBool b => simp [registerPlugin, hn]
        | vNumber m => simp [registerPlugin, hn]
        | vString s2 => simp [registerPlugin, hn]
        | vObject a b c => simp [registerPlugin, hn]
    | vNull => rfl
    | vUndefined => rfl
    | vBool b => rfl
    | vNumber m => rfl
    | vFunction k => rfl
    | vObject a b c => rfl

/-- Witness for C2 at a non-object argument. -/
theorem registerPlugin_invalid_returns_null_witness :
    failsValidation (.vNumber 5) = true
    ∧ (registerPlugin emptyRegistry (.vNumber 5)).outcome
        = Except.ok (emptyRegistry, JSValue.vNull) :=
  ⟨by decide, registerPlugin_invalid_returns_null emptyRegistry (.vNumber 5) (by decide)⟩

/-- C3: for every valid settings object, `registerPlugin` stores the
(final) settings object in the registry under its plugin name and
returns that same stored object: the plugins map at that name equals
the returned settings. -/
theorem registerPlugin_valid_stores_and_returns (st : PluginRegistry) (nm : String) (k : Nat)
    (sb : JSValue) (h : nameOk nm = true) :
    (registerPlugin st (.vObject (.vString nm) (.vFunction k) sb)).outcome
      = Except.ok ({ st with plugins := setProp st.plugins nm (JSValue.vObject (.vString nm) (.vFunction k) emptyObject) }, JSValue.vObject (.vString nm) (.vFunction k) emptyObject)
    ∧ lookupProp (setProp st.plugins nm (JSValue.vObject (.vString nm) (.vFunction k) emptyObject)) nm
      = some (JSValue.vObject (.vString nm) (.vFunction k) emptyObject) := by
  refine ⟨?_, lookupProp_setProp _ _ _⟩
  simp [registerPlugin, h, applyFilters]

/-- Witness for C3 on the empty registry. -/
theorem registerPlugin_valid_stores_and_returns_witness :
    (registerPlugin emptyRegistry (.vObject (.vString "my-plugin") (.vFunction 0) .vUndefined)).outcome
      = Except.ok ({ emptyRegistry with plugins := setProp emptyRegistry.plugins "my-plugin" (JSValue.vObject (.vString "my-plugin") (.vFunction 0) emptyObject) }, JSValue.vObject (.vString "my-plugin") (.vFunction 0) emptyObject)
    ∧ lookupProp (setProp emptyRegistry.plugins "my-plugin" (JSValue.vObject (.vString "my-plugin") (.vFunction 0) emptyObject)) "my-plugin"
      = some (JSValue.vObject (.vString "my-plugin") (.vFunction 0) emptyObject) :=
  registerPlugin_valid_stores_and_returns emptyRegistry "my-plugin" 0 .vUndefined (by decide)

/-- C4: round trip of UI-component registration: after
`registerUIComponent(pluginName, uiNamespacedName, uiType)`, a lookup
of `uiNamespacedName` with no type filter returns exactly the record
with that `pluginName` and `uiType`. -/
theorem registerUIComponent_roundTrip (st : PluginRegistry) (pn un ut : String) :
    getRegisteredUIComponent (registerUIComponent st pn un ut) un none
      = some (UIComponentRecord.mk pn ut) := by
  simp [getRegisteredUIComponent, registerUIComponent, uiTypeTruthy, lookupProp_setProp]

/-- Counterexample to C5 as stated: with `"sidebar"` stored, the
non-null argument `uiType = ""` differs from the stored type, yet
`getRegisteredUIComponent` returns the stored record, not `null`,
because the guard `if (uiType)` tests truthiness and `""` is falsy. -/
theorem getRegisteredUIComponent_emptyType_cex :
    getRegisteredUIComponent { plugins := [], pluginUIComponents := [("my-comp", UIComponentRecord.mk "my-plugin" "sidebar")] } "my-comp" (some "")
      = some (UIComponentRecord.mk "my-plugin" "sidebar")
    ∧ (some "" : Option String) ≠ none ∧ "sidebar" ≠ "" :=
  ⟨rfl, by decide, by decide⟩

/-- C5 (amended): `getRegisteredUIComponent` returns `null` whenever
no component is registered under the identifier; when a truthy
(non-null, non-empty) `uiType` is supplied it also returns `null`
whenever the stored `uiType` differs from the argument; in all other
cases (including a null or empty-string `uiType`) it returns the
stored record. -/
theorem getRegisteredUIComponent_spec (st : PluginRegistry) (un : String) (ut : Option String) :
    (lookupProp st.pluginUIComponents un = none → getRegisteredUIComponent st un ut = none)
    ∧ (∀ c, lookupProp st.pluginUIComponents un = some c → uiTypeTruthy ut = true →
        some c.uiType ≠ ut → getRegisteredUIComponent st un ut = none)
    ∧ (∀ c, lookupProp st.pluginUIComponents un = some c →
        (uiTypeTruthy ut = false ∨ some c.uiType = ut) →
        getRegisteredUIComponent st un ut = some c) := by
  refine ⟨?_, ?_, ?_⟩
  · intro hnone
    cases hT : uiTypeTruthy ut <;> simp [getRegisteredUIComponent, hnone, hT]
  · intro c hc ht hne
    simp [getRegisteredUIComponent, hc, ht, hne]
  · intro c hc h
    rcases h with hF | hEq
    · simp [getRegisteredUIComponent, hc, hF]
    · cases hT : uiTypeTruthy ut <;> simp [getRegisteredUIComponent, hc, hT, hEq]

/-- Witness for C5 (amended) on the empty registry. -/
theorem getRegisteredUIComponent_spec_witness :
    getRegisteredUIComponent emptyRegistry "my-comp" none = none :=
  (getRegisteredUIComponent_spec emptyRegistry "my-comp" none).1 rfl

/-- C6: the sort and field-visibility interactions replace the view
wholesale with a record in which only the relevant field changed:
selecting a sort option changes only the `sort` field/direction pair,
toggling a field's visibility changes only `hiddenFields`; every other
field of the view record is carried over unchanged. -/
theorem viewUpdate_changes_only_relevant_fields (view : View) (f d g : String) :
    ((onSortSelect view f d).sort = some (SortSpec.mk f d)
      ∧ (onSortSelect view f d).type = view.type
      ∧ (onSortSelect view f d).perPage = view.perPage
      ∧ (onSortSelect view f d).page = view.page
      ∧ (onSortSelect view f d).hiddenFields = view.hiddenFields
      ∧ (onSortSelect view f d).layout = view.layout)
    ∧ ((toggleFieldVisibility view g).type = view.type
      ∧ (toggleFieldVisibility view g).perPage = view.perPage
      ∧ (toggleFieldVisibility view g).page = view.page
      ∧ (toggleFieldVisibility view g).sort = view.sort
      ∧ (toggleFieldVisibility view g).layout = view.layout) :=
  ⟨⟨rfl, rfl, rfl, rfl, rfl, rfl⟩, rfl, rfl, rfl, rfl, rfl⟩

/-- C7: the layout switch accepts exactly `list`, `grid` and `table`,
setting `type` to the selected value and resetting `layout` to the
empty record; any other value throws `Invalid dataview`; and the
throwing branch is unreachable when the selected value is the type of
an available layout, since every available layout's type is one of the
three. -/
theorem viewTypeSwitch_spec :
    (∀ (view : View) (value : String), value = "list" ∨ value = "grid" ∨ value = "table" →
        viewTypeSwitch view value = Except.ok { view with type := value, layout := emptyLayout })
    ∧ (∀ (view : View) (value : String), ¬(value = "list" ∨ value = "grid" ∨ value = "table") →
        viewTypeSwitch view value = Except.error "Invalid dataview")
    ∧ (∀ (sl : Option (List String)) (view : View) (l : ViewLayoutDef),
        l ∈ availableViews sl → ∃ w, viewTypeSwitch view l.type = Except.ok w) := by
  refine ⟨?_, ?_, ?_⟩
  · intro view value h
    rcases h with h | h | h <;> subst h <;> rfl
  · intro view value h
    unfold viewTypeSwitch
    split
    · rename_i hcond
      simp only [Bool.or_eq_true, beq_iff_eq] at hcond
      exact absurd (or_assoc.mp hcond) h
    · rfl
  · intro sl view l hl
    have hV : l ∈ VIEW_LAYOUTS := by
      cases sl with
      | none => exact hl
      | some ls => exact (List.mem_filter.mp hl).1
    simp [VIEW_LAYOUTS] at hV
    rcases hV with h | h | h <;> subst h <;> exact ⟨_, rfl⟩

/-- Witness for C7: a valid and an invalid selected value. -/
theorem viewTypeSwitch_spec_witness :
    viewTypeSwitch sampleView "grid" = Except.ok { sampleView with type := "grid", layout := emptyLayout }
    ∧ viewTypeSwitch sampleView "kanban" = Except.error "Invalid dataview" :=
  ⟨viewTypeSwitch_spec.1 sampleView "grid" (Or.inr (Or.inl rfl)),
   viewTypeSwitch_spec.2.1 sampleView "kanban" (by decide)⟩

/-- C8: the fields-visibility menu offers exactly the fields whose
`enableHiding` is not `false` and whose id differs from the layout's
`mediaField`; the sort menu offers exactly the fields whose
`enableSorting` is not `false`; each menu renders nothing exactly when
its filtered list is empty. -/
theorem menuFields_spec :
    (∀ (fields : List NormalizedField) (view : View) (f : NormalizedField),
        f ∈ hidableFields fields view ↔
          f ∈ fields ∧ f.enableHiding ≠ some false ∧ view.layout.mediaField ≠ some f.id)
    ∧ (∀ (fields : List NormalizedField) (f : NormalizedField),
        f ∈ sortableFields fields ↔ f ∈ fields ∧ f.enableSorting ≠ some false)
    ∧ (∀ (fields : List NormalizedField) (view : View),
        fieldsVisibilityMenuIsNull fields view = true ↔ hidableFields fields view = [])
    ∧ (∀ (fields : List NormalizedField),
        sortMenuIsNull fields = true ↔ sortableFields fields = []) := by
  refine ⟨?_, ?_, ?_, ?_⟩
  · intro fields view f
    simp [hidableFields, List.mem_filter]
  · intro fields f
    simp [sortableFields, List.mem_filter]
  · intro fields view
    simp [fieldsVisibilityMenuIsNull, List.isEmpty_iff]
  · intro fields
    simp [sortMenuIsNull, List.isEmpty_iff]

/-- C9: selecting a page size sets `perPage` to the chosen size (one
of 10, 20, 50, 100) and also resets `page` to 1, for every current
view. -/
theorem onPageSizeSelect_resets_page (view : View) (size : Nat)
    (h : size ∈ PAGE_SIZE_VALUES) :
    (onPageSizeSelect view size).perPage = size ∧ (onPageSizeSelect view size).page = 1 :=
  ⟨rfl, rfl⟩

/-- Witness for C9 at page size 10. -/
theorem onPageSizeSelect_resets_page_witness :
    (onPageSizeSelect sampleView 10).perPage = 10 ∧ (onPageSizeSelect sampleView 10).page = 1 :=
  onPageSizeSelect_resets_page sampleView 10 (by decide)

theorem contains_iff_mem (l : List String) (a : String) : l.contains a = true ↔ a ∈ l := by
  simp [List.contains, List.elem_iff]

theorem toggleFieldVisibility_hiddenFields (view : View) (fieldId : String) :
    (toggleFieldVisibility view fieldId).hiddenFields =
      some (if (view.hiddenFields.getD []).contains fieldId
            then (view.hiddenFields.getD []).filter (fun i => i != fieldId)
            else (view.hiddenFields.getD []) ++ [fieldId]) := by
  cases h : view.hiddenFields with
  | none => simp [toggleFieldVisibility, h]
  | some hf => simp [toggleFieldVisibility, h]

/-- C10: toggling a field id is an involution on the hidden-field set:
on a duplicate-free `hiddenFields` list, toggling twice yields a list
with exactly the ids of the original; a single toggle appends the id
when absent and removes every occurrence when present. -/
theorem toggleFieldVisibility_involution (view : View) (fieldId : String)
    (hnd : (view.hiddenFields.getD []).Nodup) :
    (∀ x, x ∈ ((toggleFieldVisibility (toggleFieldVisibility view fieldId) fieldId).hiddenFields.getD [])
        ↔ x ∈ (view.hiddenFields.getD []))
    ∧ (fieldId ∉ (view.hiddenFields.getD []) →
        (toggleFieldVisibility view fieldId).hiddenFields
          = some ((view.hiddenFields.getD []) ++ [fieldId]))
    ∧ (fieldId ∈ (view.hiddenFields.getD []) →
        ∀ x, x ∈ ((toggleFieldVisibility view fieldId).hiddenFields.getD [])
          ↔ (x ∈ (view.hiddenFields.getD []) ∧ x ≠ fieldId)) := by
  have h1 := toggleFieldVisibility_hiddenFields view fieldId
  refine ⟨?_, ?_, ?_⟩
  · intro x
    by_cases hc : fieldId ∈ view.hiddenFields.getD []
    · have hcb : (view.hiddenFields.getD []).contains fieldId = true :=
        (contains_iff_mem _ _).mpr hc
      have e1 : (toggleFieldVisibility view fieldId).hiddenFields
          = some ((view.hiddenFields.getD []).filter (fun i => i != fieldId)) := by
        rw [h1, if_pos hcb]
      have h2 := toggleFieldVisibility_hiddenFields (toggleFieldVisibility view fieldId) fieldId
      rw [e1] at h2
      simp only [Option.getD_some] at h2
      have hnc : ¬(((view.hiddenFields.getD []).filter (fun i => i != fieldId)).contains fieldId = true) := by
        rw [contains_iff_mem]
        simp [List.mem_filter]
      rw [if_neg hnc] at h2
      rw [h2]
      simp only [Option.getD_some, List.mem_append, List.mem_filter, List.mem_singleton,
        bne_iff_ne]
      constructor
      · rintro (⟨hx, _⟩ | rfl)
        · exact hx
        · exact hc
      · intro hx
        by_cases hxf : x = fieldId
        · exact Or.inr hxf
        · exact Or.inl ⟨hx, hxf⟩
    · have hcb : ¬((view.hiddenFields.getD []).contains fieldId = true) := by
        rw [contains_iff_mem]
        exact hc
      have e1 : (toggleFieldVisibility view fieldId).hiddenFields
          = some ((view.hiddenFields.getD []) ++ [fieldId]) := by
        rw [h1, if_neg hcb]
      have h2 := toggleFieldVisibility_hiddenFields (toggleFieldVisibility view fieldId) fieldId
      rw [e1] at h2
      simp only [Option.getD_some] at h2
      have hm : ((view.hiddenFields.getD []) ++ [fieldId]).contains fieldId = true := by
        rw [contains_iff_mem]
        simp
      rw [if_pos hm] at h2
      rw [h2]
      simp only [Option.getD_some, List.mem_filter, List.mem_append, List.mem_singleton,
        bne_iff_ne]
      constructor
      · rintro ⟨hx | rfl, hne⟩
        · exact hx
        · exact absurd rfl hne
      · intro hx
        exact ⟨Or.inl hx, fun hxf => hc (hxf ▸ hx)⟩
  · intro hc
    have hcb : ¬((view.hiddenFields.getD []).contains fieldId = true) := by
      rw [contains_iff_mem]
      exact hc
    rw [h1, if_neg hcb]
  · intro hc x
    have hcb : (view.hiddenFields.getD []).contains fieldId = true :=
      (contains_iff_mem _ _).mpr hc
    rw [h1, if_pos hcb]
    simp only [Option.getD_some, List.mem_filter, bne_iff_ne]

/-- Witness for C10 on a concrete view whose field is hidden. -/
theorem toggleFieldVisibility_involution_witness :
    ("author" ∈ ((toggleFieldVisibility (toggleFieldVisibility sampleView "author") "author").hiddenFields.getD [])
      ↔ "author" ∈ (sampleView.hiddenFields.getD []))
    ∧ (toggleFieldVisibility sampleView "title").hiddenFields
        = some ((sampleView.hiddenFields.getD []) ++ ["title"]) := by
  have h := toggleFieldVisibility_involution sampleView "author" (by decide)
  have h2 := toggleFieldVisibility_involution sampleView "title" (by decide)
  exact ⟨h.1 "author", h2.2.1 (by decide)⟩

end Gutenberg
